import Mathlib

/-
Shallow embedding of the client-side scripts of the nutrition-advisor
repository (config resolver, auth form handlers, dashboard controller,
meal CRUD panel, chart handling, profile/goals calculator).

The repository ships several revisions of the same scripts:
  - part_001              : CONFIG resolver (config.js)
  - part_002 / part_003   : two revisions of the dashboard script
  - home-script.js        : enhanced auth form handlers (two identical copies)
  - script.js / part_000  : earlier auth form handlers
Definitions below are translated from those sources; the suffixes v2/v3
refer to the part_002 and part_003 revisions of the dashboard script.
JavaScript numbers are modelled as exact rationals, localStorage and the
DOM as explicit record state, and a thrown exception as an error value.
-/

namespace NutritionAdvisor

/-! ## Config resolver (src/unnamed/part_001) -/

/-- Full CONFIG object built by part_001 lines 4-41: environment label,
backend and frontend base URLs, the four feature flags, the three
timeouts and the three storage keys. -/
structure Config where
  environment : String
  apiBaseUrl : String
  frontendUrl : String
  aiEnabled : Bool
  debugMode : Bool
  analyticsOn : Bool
  serviceWorkerOn : Bool
  defaultTimeoutMs : Nat
  uploadTimeoutMs : Nat
  aiRequestTimeoutMs : Nat
  jwtTokenKey : String
  userPrefsKey : String
  themeKey : String
deriving Repr, DecidableEq

/-- Hostname test used by the environment and URL branches of CONFIG:
window.location.hostname is localhost or 127.0.0.1. -/
def isLocalHostname (hostname : String) : Bool :=
  hostname = "localhost" || hostname = "127.0.0.1"

/-- CONFIG as a function of window.location.hostname (part_001 lines 4-41).
Each field mirrors the corresponding ternary in the source; note that the
feature flags and the default timeout test hostname against localhost
only, while ENVIRONMENT and the URLs also accept 127.0.0.1. -/
def mkConfig (hostname : String) : Config :=
  { environment := if isLocalHostname hostname then "development" else "production"
    apiBaseUrl := if isLocalHostname hostname then "http://localhost:5000"
      else "https://nutrition-advisor-a93q.onrender.com"
    frontendUrl := if isLocalHostname hostname then "http://localhost:3000"
      else "https://nutrition-advisor-frontend.onrender.com"
    aiEnabled := true
    debugMode := hostname = "localhost"
    analyticsOn := !(hostname = "localhost")
    serviceWorkerOn := !(hostname = "localhost")
    defaultTimeoutMs := if hostname = "localhost" then 5000 else 10000
    uploadTimeoutMs := 30000
    aiRequestTimeoutMs := 15000
    jwtTokenKey := "nutrition_advisor_token"
    userPrefsKey := "nutrition_advisor_prefs"
    themeKey := "nutrition_advisor_theme" }

/-- Test whether an endpoint string begins with a slash, as the template
in CONFIG.getApiUrl (part_001 lines 44-46) does with startsWith. -/
def beginsWithSlash (endpoint : String) : Bool :=
  match endpoint.data with
  | [] => false
  | c :: _ => c = '/'

/-- CONFIG.getApiUrl (part_001 lines 44-46): prepend the API base URL,
inserting a slash when the endpoint does not already begin with one. -/
def getApiUrl (c : Config) (endpoint : String) : String :=
  c.apiBaseUrl ++ (if beginsWithSlash endpoint then "" else "/") ++ endpoint

/-! ## HTTP outcomes shared by all handlers -/

/-- Outcome of one fetch as the handlers observe it: either a response
with its HTTP status code, or a rejected promise (network error). -/
inductive FetchOutcome where
  | response (status : Nat)
  | networkError
deriving Repr, DecidableEq

/-- Response.ok of the Fetch API: the status lies in the 2xx range. -/
def response_ok (status : Nat) : Bool :=
  200 ≤ status && status < 300

/-! ## Dashboard makeApiCall, two revisions (part_002 / part_003) -/

/-- Browser state that the dashboard api helper can touch: the stored
JWT token (localStorage under TOKEN_KEY) and the current page location. -/
structure BrowserState where
  token : Option String
  location : String
deriving Repr, DecidableEq

/-- makeApiCall of the part_002 dashboard revision (lines 19-62). It
sends the request and returns the status to the caller (none when the
fetch throws); it never touches localStorage or the page location. -/
def makeApiCall_v2 (outcome : FetchOutcome) (s : BrowserState) :
    BrowserState × Option Nat :=
  match outcome with
  | .response status => (s, some status)
  | .networkError => (s, none)

/-- makeApiCall of the part_003 dashboard revision (lines 19-71). A 401
status removes the token from localStorage and navigates to index.html
before returning (lines 42-47); every other status and a thrown network
error leave the browser state unchanged. -/
def makeApiCall_v3 (outcome : FetchOutcome) (s : BrowserState) :
    BrowserState × Option Nat :=
  match outcome with
  | .response status =>
    if status = 401 then
      ({ token := none, location := "index.html" }, some 401)
    else
      (s, some status)
  | .networkError => (s, none)

/-! ## Auth form handlers (home-script.js, script.js, part_000) -/

/-- Data collected from the registration form via FormData. An empty
string models both an absent and an empty field (both are falsy under
the !data.name style checks of the handler). -/
structure RegisterForm where
  name : String
  email : String
  password : String
deriving Repr, DecidableEq

/-- Observable effect of one submission of an auth form: the list of
endpoints POSTed (in order), the message shown via showMessage as a
(css class, text) pair, and whether the form was reset. -/
structure FormEffect where
  requests : List String
  message : Option (String × String)
  formReset : Bool
deriving Repr, DecidableEq

/-- Registration submit handler of home-script.js (lines 95-136, with an
identical copy at lines 364-407). Empty name, email or password aborts
with an error; a password of fewer than 6 characters aborts with an
error; otherwise exactly one POST to /register is made and the message
follows response.ok. The serverError argument is the result.error field
of the JSON body used in the failure branch. -/
def registerSubmit (d : RegisterForm) (outcome : FetchOutcome)
    (serverError : Option String) : FormEffect :=
  if d.name = "" || d.email = "" || d.password = "" then
    { requests := []
      message := some ("error", "Please fill in all fields.")
      formReset := false }
  else if d.password.length < 6 then
    { requests := []
      message := some ("error", "Password must be at least 6 characters long.")
      formReset := false }
  else
    match outcome with
    | .response status =>
      if response_ok status then
        { requests := ["/register"]
          message := some ("success", "Registration successful! You can login now.")
          formReset := true }
      else
        { requests := ["/register"]
          message := some ("error", "Error: " ++ serverError.getD "Registration failed")
          formReset := false }
    | .networkError =>
      { requests := ["/register"]
        message := some ("error", "Network error. Please check your connection and try again.")
        formReset := false }

/-- The JSON body a successful /login responds with, as far as the
handlers read it: the token and the user object fields. -/
structure LoginResult where
  token : String
  userId : String
  userName : String
  userEmail : String
deriving Repr, DecidableEq

/-- The user-preferences blob home-script.js serialises into
localStorage on a successful login (lines 162-167). -/
structure PrefsBlob where
  user_id : String
  name : String
  email : String
  loginTime : String
deriving Repr, DecidableEq

/-- The two localStorage keys the auth handlers write: the JWT token and
the user-preferences JSON blob. -/
structure AuthStorage where
  token : Option String
  prefs : Option PrefsBlob
deriving Repr, DecidableEq

/-- Login submit handler of home-script.js (lines 142-195, identical
copy at lines 413-467). Empty email or password aborts with an error
and no request; on response.ok both the token and the preferences blob
are written to localStorage; on any other status or a network error the
storage is left unchanged. -/
def loginSubmit_home (email password : String) (outcome : FetchOutcome)
    (result : LoginResult) (serverError : Option String) (now : String)
    (st : AuthStorage) : AuthStorage × FormEffect :=
  if email = "" || password = "" then
    (st, { requests := []
           message := some ("error", "Please enter both email and password.")
           formReset := false })
  else
    match outcome with
    | .response status =>
      if response_ok status then
        ({ token := some result.token
           prefs := some { user_id := result.userId, name := result.userName
                           email := result.userEmail, loginTime := now } },
         { requests := ["/login"]
           message := some ("success", "Login successful! Redirecting to dashboard...")
           formReset := true })
      else
        (st, { requests := ["/login"]
               message := some ("error", "Error: " ++ serverError.getD "Login failed")
               formReset := false })
    | .networkError =>
      (st, { requests := ["/login"]
             message := some ("error", "Network error. Please check your connection and try again.")
             formReset := false })

/-- Login submit handler of the earlier revisions, script.js lines 30-52
and part_000 lines 58-85: no field validation, and on response.ok only
the token is stored (localStorage.setItem of the token; no preferences
blob is ever written). On a non-ok status the storage is unchanged. -/
def loginSubmit_script (outcome : FetchOutcome) (result : LoginResult)
    (serverError : Option String) (st : AuthStorage) : AuthStorage × FormEffect :=
  match outcome with
  | .response status =>
    if response_ok status then
      ({ st with token := some result.token },
       { requests := ["/login"]
         message := some ("success", "Login successful! JWT Token saved.")
         formReset := true })
    else
      (st, { requests := ["/login"]
             message := some ("error", "Error: " ++ serverError.getD "Unknown error")
             formReset := false })
  | .networkError =>
    (st, { requests := ["/login"], message := none, formReset := false })

/-! ## deleteMeal (part_002 lines 150-167, part_003 lines 303-319) -/

/-- Observable effect of one deleteMeal invocation: DELETE requests
issued, whether the stats and the list of meals for today were
re-fetched, and whether an alert was raised. -/
structure DeleteEffect where
  deleteRequests : List String
  statsRefetched : Bool
  mealsRefetched : Bool
  alerted : Bool
deriving Repr, DecidableEq

/-- deleteMeal, identical in both dashboard revisions. A declined
confirm dialog returns immediately; otherwise one DELETE request is
issued, and on response.ok both loadMealStatsWithGoals and
loadTodaysMeals are called, while any other status or a thrown error
only raises an alert. -/
def deleteMeal (mealId : String) (confirmed : Bool) (outcome : FetchOutcome) :
    DeleteEffect :=
  if !confirmed then
    { deleteRequests := [], statsRefetched := false
      mealsRefetched := false, alerted := false }
  else
    match outcome with
    | .response status =>
      if response_ok status then
        { deleteRequests := ["/meal/delete/" ++ mealId]
          statsRefetched := true, mealsRefetched := true, alerted := false }
      else
        { deleteRequests := ["/meal/delete/" ++ mealId]
          statsRefetched := false, mealsRefetched := false, alerted := true }
    | .networkError =>
      { deleteRequests := ["/meal/delete/" ++ mealId]
        statsRefetched := false, mealsRefetched := false, alerted := true }

/-! ## Chart handles (part_002 lines 315-327 and 729-895; same in part_003) -/

/-- Module-level chart state of the dashboard. Chart instances are
numbered by creation order; macrosChart and caloriesChart are the two
mutable handles, and the Displayed fields record which instance (if
any) is currently rendered on each canvas - chart.destroy() clears the
canvas, new Chart(...) renders a fresh instance on it. -/
structure ChartState where
  macrosChart : Option Nat
  caloriesChart : Option Nat
  macrosDisplayed : Option Nat
  caloriesDisplayed : Option Nat
  nextId : Nat
deriving Repr, DecidableEq

/-- Initial dashboard state: both handles are null (part_002 lines 15-16). -/
def chartInit : ChartState :=
  { macrosChart := none, caloriesChart := none
    macrosDisplayed := none, caloriesDisplayed := none, nextId := 0 }

/-- createMacrosChart (part_002 lines 729-799, part_003 lines 819-880).
A truthy handle is destroyed first (the handle itself is not reset).
The calories computed from the macros decide the branch: a zero total
paints a placeholder on the raw canvas and returns without creating a
chart; otherwise a new Chart instance is created and assigned to the
handle. -/
def createMacrosChart (protein carbs fat : ℚ) (s : ChartState) : ChartState :=
  let s1 := if s.macrosChart.isSome then { s with macrosDisplayed := none } else s
  let total := protein * 4 + carbs * 4 + fat * 9
  if total = 0 then
    s1
  else
    { s1 with macrosChart := some s1.nextId
              macrosDisplayed := some s1.nextId
              nextId := s1.nextId + 1 }

/-- createCaloriesChart (part_002 lines 802-895, part_003 lines 882-960).
Same shape as createMacrosChart: destroy a truthy handle, then return
with only a placeholder when dailyData has no dates, else create a new
Chart instance and assign it to the handle. -/
def createCaloriesChart (dailyData : List (String × ℚ)) (s : ChartState) :
    ChartState :=
  let s1 := if s.caloriesChart.isSome then { s with caloriesDisplayed := none } else s
  if dailyData = [] then
    s1
  else
    { s1 with caloriesChart := some s1.nextId
              caloriesDisplayed := some s1.nextId
              nextId := s1.nextId + 1 }

/-- closeAnalysisModal (part_002 lines 315-327, part_003 lines 460-471):
each truthy handle is destroyed and then set to null. -/
def closeAnalysisModal (s : ChartState) : ChartState :=
  let s1 := if s.macrosChart.isSome then
    { s with macrosDisplayed := none, macrosChart := none } else s
  if s1.caloriesChart.isSome then
    { s1 with caloriesDisplayed := none, caloriesChart := none } else s1

/-- The spec invariant on chart handles: each handle is either null or
refers to the chart instance currently displayed on its canvas. -/
def chartHandleInv (s : ChartState) : Prop :=
  (s.macrosChart = none ∨ s.macrosChart = s.macrosDisplayed) ∧
  (s.caloriesChart = none ∨ s.caloriesChart = s.caloriesDisplayed)

instance (s : ChartState) : Decidable (chartHandleInv s) := by
  unfold chartHandleInv; infer_instance

/-! ## displayNutritionPreview (part_002 lines 262-289, part_003 lines 410-437) -/

/-- One serving object of a food-details result; each nutrient field may
be absent (and the handler also treats an empty string as absent,
because both are falsy in the serving.calories style fallbacks). -/
structure Serving where
  calories : Option String
  protein : Option String
  carbohydrate : Option String
  fat : Option String
deriving Repr, DecidableEq

/-- The servings.serving field: Array.isArray distinguishes an array of
servings from a single serving object. -/
inductive ServingEntry where
  | one (s : Serving)
  | many (l : List Serving)
deriving Repr, DecidableEq

/-- The food.servings object; its serving field may itself be absent. -/
structure Servings where
  serving : Option ServingEntry
deriving Repr, DecidableEq

/-- The food object of a food-details result. -/
structure Food where
  servings : Option Servings
deriving Repr, DecidableEq

/-- A food-details result as displayNutritionPreview reads it. -/
structure FoodDetails where
  food : Option Food
deriving Repr, DecidableEq

/-- The four nutrition preview fields plus the visibility of the panel. -/
structure Preview where
  calories : String
  protein : String
  carbs : String
  fat : String
  visible : Bool
deriving Repr, DecidableEq

/-- JavaScript value-or-default on a string field: v or dflt yields dflt
when v is absent or the empty string (both falsy). -/
def jsOr (v : Option String) (dflt : String) : String :=
  match v with
  | some s => if s = "" then dflt else s
  | none => dflt

/-- displayNutritionPreview. Missing food or food.servings logs an error
and returns with the preview untouched. Otherwise the serving is taken
from index 0 when servings.serving is an array and from the object
itself when it is not; reading a nutrient off an undefined serving (an
empty array, or an absent serving field) throws a TypeError before any
field is written. With a serving in hand the four fields are set with a
zero fallback and the panel is made visible. -/
def displayNutritionPreview (foodData : FoodDetails) (pv : Preview) :
    Except String Preview :=
  match foodData.food with
  | none => .ok pv
  | some food =>
    match food.servings with
    | none => .ok pv
    | some servings =>
      let sv : Option Serving :=
        match servings.serving with
        | some (.many l) => l.head?
        | some (.one s) => some s
        | none => none
      match sv with
      | none => .error "TypeError: cannot read properties of undefined"
      | some s =>
        .ok { calories := jsOr s.calories "0"
              protein := jsOr s.protein "0"
              carbs := jsOr s.carbohydrate "0"
              fat := jsOr s.fat "0"
              visible := true }

/-! ## Food search debounce (part_002 lines 170-189, part_003 lines 322-341) -/

/-- State of the debounced food search: the pending setTimeout timer as
a (deadline, query) pair (deadline = scheduling time + 500 ms), the
innerHTML of the suggestion list, and the queries for which searchFood
has been called, in order. -/
structure SearchState where
  timer : Option (Nat × String)
  suggestionsHtml : String
  issued : List String
deriving Repr, DecidableEq

/-- Whitespace test used by trim. -/
def isSpaceChar (c : Char) : Bool :=
  c = ' ' || c = '\t' || c = '\n' || c = '\r'

/-- String.prototype.trim modelled over the character list: leading and
trailing whitespace is removed. -/
def jsTrim (s : String) : String :=
  ⟨((s.data.dropWhile isSpaceChar).reverse.dropWhile isSpaceChar).reverse⟩

/-- The input event handler installed by setupFoodSearch. It trims the
raw field value, unconditionally clears any pending timer, clears the
suggestion list and returns when the trimmed query has fewer than 2
characters, and otherwise schedules searchFood(query) 500 ms ahead. -/
def handleSearchInput (raw : String) (now : Nat) (s : SearchState) : SearchState :=
  let query := jsTrim raw
  let s1 := { s with timer := none }
  if query.length < 2 then
    { s1 with suggestionsHtml := "" }
  else
    { s1 with timer := some (now + 500, query) }

/-- Timer semantics: a pending timer whose deadline lies strictly before
the present moment has already fired, issuing its search. -/
def fireDue (now : Nat) (s : SearchState) : SearchState :=
  match s.timer with
  | some (deadline, q) =>
    if deadline < now then
      { s with timer := none, issued := s.issued ++ [q] }
    else s
  | none => s

/-- At the end of a quiet trace the surviving timer fires. -/
def flushTimer (s : SearchState) : SearchState :=
  match s.timer with
  | some (_, q) => { s with timer := none, issued := s.issued ++ [q] }
  | none => s

/-- Run a timeline of input events, each a (time, raw value) pair in
increasing time order: before each event any due timer fires, then the
handler runs; after the last event the surviving timer fires. -/
def runSearchEvents : List (Nat × String) → SearchState → SearchState
  | [], s => flushTimer s
  | (t, raw) :: rest, s => runSearchEvents rest (handleSearchInput raw t (fireDue t s))

/-- The searches the debounce is specified to issue on a timeline: the
trimmed query of each event that is at least 2 characters long and is
followed by no further input event within 500 ms. -/
def debouncedSearches : List (Nat × String) → List String
  | [] => []
  | (t, raw) :: rest =>
    let q := jsTrim raw
    let fires : Bool :=
      match rest with
      | [] => true
      | (t2, _) :: _ => decide (t + 500 < t2)
    (if 2 ≤ q.length && fires then [q] else []) ++ debouncedSearches rest

/-- Contribution of a timer already pending when a timeline starts: it
fires unless the first event arrives by its deadline. -/
def pendingFires (timer : Option (Nat × String)) (evs : List (Nat × String)) :
    List String :=
  match timer with
  | none => []
  | some (deadline, q) =>
    match evs with
    | [] => [q]
    | (t, _) :: _ => if deadline < t then [q] else []

/-! ## calculateGoals (part_002 lines 405-467, part_003 lines 537-590) -/

/-- The profile form fields as calculateGoals parses them: parseInt and
parseFloat results are absent (none) for NaN, the select values are raw
strings, and weeklyGoal falls back to 0 for an empty field. -/
structure ProfileFormInput where
  age : Option Int
  weight : Option ℚ
  height : Option Int
  gender : String
  activityLevel : String
  weeklyGoal : ℚ
deriving Repr, DecidableEq

/-- JavaScript falsiness of a parsed number: NaN (none) and 0 are falsy. -/
def numFalsyInt (v : Option Int) : Bool :=
  match v with
  | none => true
  | some z => z = 0

/-- JavaScript falsiness of a parseFloat result. -/
def numFalsyRat (v : Option ℚ) : Bool :=
  match v with
  | none => true
  | some q => q = 0

/-- The calculated nutrition goals (Math.round yields integers). -/
structure Goals where
  dailyCalories : Int
  dailyProtein : Int
  dailyCarbs : Int
  dailyFat : Int
deriving Repr, DecidableEq

/-- The activityMultipliers lookup with its or-1.2 fallback. -/
def activityMultiplier (level : String) : ℚ :=
  if level = "sedentary" then 1.2
  else if level = "light" then 1.375
  else if level = "moderate" then 1.55
  else if level = "active" then 1.725
  else if level = "very_active" then 1.9
  else 1.2

/-- calculateGoals. A falsy required field aborts with the inline error
message and no goals. Otherwise: Mifflin-St Jeor BMR (the gender branch
tests for the exact string male), TDEE = BMR times the activity
multiplier, a daily adjustment of weeklyGoal * 7700 / 7 calories, and
the 25/45/30 percent macro split at 4, 4 and 9 calories per gram, all
with Math.round. JavaScript float arithmetic is modelled exactly over
the rationals. -/
def calculateGoals (f : ProfileFormInput) : Except String Goals :=
  if numFalsyInt f.age || numFalsyRat f.weight || numFalsyInt f.height ||
      f.gender = "" || f.activityLevel = "" then
    .error "Please fill in all personal information fields first."
  else
    let age : ℚ := (f.age.getD 0 : Int)
    let weight : ℚ := f.weight.getD 0
    let height : ℚ := (f.height.getD 0 : Int)
    let bmr : ℚ :=
      if f.gender = "male" then
        10 * weight + 6.25 * height - 5 * age + 5
      else
        10 * weight + 6.25 * height - 5 * age - 161
    let tdee : ℚ := bmr * activityMultiplier f.activityLevel
    let weeklyCalorieAdjustment : ℚ := f.weeklyGoal * 7700
    let dailyCalorieAdjustment : ℚ := weeklyCalorieAdjustment / 7
    let dailyCalories : Int := round (tdee + dailyCalorieAdjustment)
    let proteinCalories : ℚ := (dailyCalories : ℚ) * 0.25
    let carbsCalories : ℚ := (dailyCalories : ℚ) * 0.45
    let fatCalories : ℚ := (dailyCalories : ℚ) * 0.30
    .ok { dailyCalories := dailyCalories
          dailyProtein := round (proteinCalories / 4)
          dailyCarbs := round (carbsCalories / 4)
          dailyFat := round (fatCalories / 9) }

/-- Goal computation exactly as claim C8 words it, written from the
specification text for comparison with calculateGoals: BMR with +5 for
male and -161 otherwise, TDEE by the named multipliers defaulting to
1.2, dailyCalories = round(TDEE + weeklyGoal*7700/7), and the macro
goals round(0.25 c / 4), round(0.45 c / 4), round(0.30 c / 9). -/
def specGoals (age height : Int) (weight weeklyGoal : ℚ)
    (gender activityLevel : String) : Goals :=
  let bmr : ℚ :=
    if gender = "male" then
      10 * weight + 6.25 * (height : ℚ) - 5 * (age : ℚ) + 5
    else
      10 * weight + 6.25 * (height : ℚ) - 5 * (age : ℚ) - 161
  let mult : ℚ :=
    if activityLevel = "sedentary" then 1.2
    else if activityLevel = "light" then 1.375
    else if activityLevel = "moderate" then 1.55
    else if activityLevel = "active" then 1.725
    else if activityLevel = "very_active" then 1.9
    else 1.2
  let tdee := bmr * mult
  let dailyCalories : Int := round (tdee + weeklyGoal * 7700 / 7)
  { dailyCalories := dailyCalories
    dailyProtein := round (0.25 * (dailyCalories : ℚ) / 4)
    dailyCarbs := round (0.45 * (dailyCalories : ℚ) / 4)
    dailyFat := round (0.30 * (dailyCalories : ℚ) / 9) }

/-! ## loadMealStatsWithGoals (part_002 lines 551-578, part_003 lines 659-685) -/

/-- The /meals/stats response body as the dashboard reads it. -/
structure MealStats where
  total_calories : ℚ
  meals_count : ℚ
  goal_progress : ℚ
  streak : ℚ
deriving Repr, DecidableEq

/-- The four stat tiles of the dashboard after rendering. -/
structure StatTiles where
  caloriesCount : ℚ
  mealsCount : ℚ
  goalProgressPct : ℚ
  streakCount : ℚ
deriving Repr, DecidableEq

/-- loadMealStatsWithGoals. Nothing renders unless the stats call is ok.
The displayed progress starts as the server goal_progress; when the
profile call is ok and its dailyCalories field is truthy (present and
nonzero) the progress is recomputed client-side as
Math.min(Math.round(total_calories / dailyCalories * 100), 100). -/
def loadMealStatsWithGoals (statsOk : Bool) (stats : MealStats)
    (profileOk : Bool) (dailyCalories : Option ℚ) : Option StatTiles :=
  if statsOk then
    let goalProgress : ℚ :=
      if profileOk then
        match dailyCalories with
        | some d =>
          if d = 0 then stats.goal_progress
          else ((min (round (stats.total_calories / d * 100)) 100 : Int) : ℚ)
        | none => stats.goal_progress
      else stats.goal_progress
    some { caloriesCount := stats.total_calories
           mealsCount := stats.meals_count
           goalProgressPct := goalProgress
           streakCount := stats.streak }
  else none

/-! ## Theorems -/

/-- Claim C7: CONFIG is a pure function of window.location.hostname;
ENVIRONMENT is development and API_BASE_URL is the local URL exactly
when the hostname is localhost or 127.0.0.1 (the production values
otherwise), FEATURES.DEBUG_MODE is true exactly when the hostname is
localhost, and two page loads with the same hostname build identical
CONFIG values. -/
theorem C7_config_pure_in_hostname (hostname : String) :
    ((mkConfig hostname).environment = "development" ↔
      (hostname = "localhost" ∨ hostname = "127.0.0.1")) ∧
    ((mkConfig hostname).apiBaseUrl = "http://localhost:5000" ↔
      (hostname = "localhost" ∨ hostname = "127.0.0.1")) ∧
    ((mkConfig hostname).environment = "production" ↔
      ¬(hostname = "localhost" ∨ hostname = "127.0.0.1")) ∧
    ((mkConfig hostname).apiBaseUrl = "https://nutrition-advisor-a93q.onrender.com" ↔
      ¬(hostname = "localhost" ∨ hostname = "127.0.0.1")) ∧
    ((mkConfig hostname).debugMode = true ↔ hostname = "localhost") ∧
    (∀ other : String, hostname = other → mkConfig hostname = mkConfig other) := by
  have hlast : ∀ other : String, hostname = other → mkConfig hostname = mkConfig other := by
    intro other h
    rw [h]
  by_cases h1 : hostname = "localhost" <;> by_cases h2 : hostname = "127.0.0.1" <;>
    refine ⟨?_, ?_, ?_, ?_, ?_, hlast⟩ <;>
    simp [mkConfig, isLocalHostname, h1, h2]

/-- Claim C7 witness: the localhost configuration is the development
one with DEBUG_MODE on, and equal page loads agree. -/
theorem C7_config_pure_in_hostname_witness :
    (mkConfig "localhost").environment = "development" ∧
    (mkConfig "localhost").debugMode = true ∧
    mkConfig "localhost" = mkConfig "localhost" :=
  ⟨(C7_config_pure_in_hostname "localhost").1.mpr (Or.inl rfl),
   (C7_config_pure_in_hostname "localhost").2.2.2.2.1.mpr rfl,
   (C7_config_pure_in_hostname "localhost").2.2.2.2.2 "localhost" rfl⟩

/-- Claim C1 counterexample: the claim quantifies over every
authenticated call made through makeApiCall, but the part_002 revision
of makeApiCall has no 401 branch; a 401 response leaves the stored JWT
token in local storage and the page where it was, so the token is not
removed and no navigation to the login page happens. -/
theorem C1_counterexample :
    (makeApiCall_v2 (.response 401)
        { token := some "jwt", location := "dashboard.html" }).1 =
      { token := some "jwt", location := "dashboard.html" } := rfl

/-- Claim C1 as amended: in the part_003 revision of makeApiCall a 401
response removes the stored token and navigates to index.html, and any
other status (or a thrown network error) leaves the browser state
unchanged; the part_002 revision of makeApiCall never changes the
stored token or the location for any outcome. -/
theorem C1_amended_401_logout (outcome : FetchOutcome) (s : BrowserState) :
    (outcome = .response 401 →
      (makeApiCall_v3 outcome s).1.token = none ∧
      (makeApiCall_v3 outcome s).1.location = "index.html") ∧
    (∀ status : Nat, outcome = .response status → status ≠ 401 →
      (makeApiCall_v3 outcome s).1 = s) ∧
    (outcome = .networkError → (makeApiCall_v3 outcome s).1 = s) ∧
    (makeApiCall_v2 outcome s).1 = s := by
  refine ⟨?_, ?_, ?_, ?_⟩
  · rintro rfl
    simp [makeApiCall_v3]
  · rintro status rfl h
    simp [makeApiCall_v3, h]
  · rintro rfl
    rfl
  · cases outcome <;> rfl

/-- Claim C1 amended witness: a 401 clears the token via the part_003
helper, a 500 does not. -/
theorem C1_amended_401_logout_witness :
    (makeApiCall_v3 (.response 401)
        { token := some "jwt", location := "dashboard.html" }).1.token = none ∧
    (makeApiCall_v3 (.response 500)
        { token := some "jwt", location := "dashboard.html" }).1 =
      { token := some "jwt", location := "dashboard.html" } :=
  ⟨((C1_amended_401_logout (.response 401)
      { token := some "jwt", location := "dashboard.html" }).1 rfl).1,
   (C1_amended_401_logout (.response 500)
      { token := some "jwt", location := "dashboard.html" }).2.1 500 rfl (by decide)⟩

/-- Claim C2: a registration submission with non-empty name, email and
password and a password of at least 6 characters issues exactly one
POST to /register, and a 2xx response shows the success message; a
password shorter than 6 characters issues no request and shows an
error message instead. -/
theorem C2_register_one_post (d : RegisterForm) (outcome : FetchOutcome)
    (serverError : Option String) :
    (d.name ≠ "" → d.email ≠ "" → 6 ≤ d.password.length →
      (registerSubmit d outcome serverError).requests = ["/register"] ∧
      (∀ status : Nat, outcome = .response status → response_ok status = true →
        (registerSubmit d outcome serverError).message =
          some ("success", "Registration successful! You can login now."))) ∧
    (d.password.length < 6 →
      (registerSubmit d outcome serverError).requests = [] ∧
      ∃ t : String, (registerSubmit d outcome serverError).message = some ("error", t)) := by
  constructor
  · intro hn he hp
    have hpne : d.password ≠ "" := by
      intro h
      rw [h] at hp
      simp [String.length] at hp
    have hlt : ¬ d.password.length < 6 := not_lt.mpr hp
    constructor
    · cases outcome with
      | response status =>
        by_cases hok : response_ok status = true <;>
          simp [registerSubmit, hn, he, hpne, hlt, hok]
      | networkError => simp [registerSubmit, hn, he, hpne, hlt]
    · rintro status rfl hok
      simp [registerSubmit, hn, he, hpne, hlt, hok]
  · intro hp6
    by_cases hn : d.name = ""
    · exact ⟨by simp [registerSubmit, hn], "Please fill in all fields.",
        by simp [registerSubmit, hn]⟩
    · by_cases he : d.email = ""
      · exact ⟨by simp [registerSubmit, he], "Please fill in all fields.",
          by simp [registerSubmit, he]⟩
      · by_cases hpw : d.password = ""
        · exact ⟨by simp [registerSubmit, hpw], "Please fill in all fields.",
            by simp [registerSubmit, hpw]⟩
        · exact ⟨by simp [registerSubmit, hn, he, hpw, hp6],
            "Password must be at least 6 characters long.",
            by simp [registerSubmit, hn, he, hpw, hp6]⟩

/-- Claim C2 witness: a valid registration with a 7-character password
and a 200 response POSTs once and reports success; a 3-character
password issues no request. -/
theorem C2_register_one_post_witness :
    (registerSubmit { name := "Ada", email := "ada@example.com", password := "secret1" }
        (.response 200) none).requests = ["/register"] ∧
    (registerSubmit { name := "Ada", email := "ada@example.com", password := "secret1" }
        (.response 200) none).message =
      some ("success", "Registration successful! You can login now.") ∧
    (registerSubmit { name := "Ada", email := "ada@example.com", password := "abc" }
        (.response 200) none).requests = [] := by
  have h1 := C2_register_one_post
    { name := "Ada", email := "ada@example.com", password := "secret1" } (.response 200) none
  have h2 := C2_register_one_post
    { name := "Ada", email := "ada@example.com", password := "abc" } (.response 200) none
  exact ⟨(h1.1 (by decide) (by decide) (by decide)).1,
         (h1.1 (by decide) (by decide) (by decide)).2 200 rfl (by decide),
         (h2.2 (by decide)).1⟩

/-- Claim C5: deleteMeal issues no DELETE request and re-fetches nothing
when the confirmation dialog is declined; the stats and the list of
meals for today are re-fetched exactly when the user confirmed and the
DELETE response status is 2xx. -/
theorem C5_delete_refetch_gating (mealId : String) (confirmed : Bool)
    (outcome : FetchOutcome) :
    (confirmed = false →
      deleteMeal mealId confirmed outcome =
        { deleteRequests := [], statsRefetched := false
          mealsRefetched := false, alerted := false }) ∧
    ((deleteMeal mealId confirmed outcome).statsRefetched = true ↔
      confirmed = true ∧
        ∃ status : Nat, outcome = .response status ∧ response_ok status = true) ∧
    ((deleteMeal mealId confirmed outcome).mealsRefetched =
      (deleteMeal mealId confirmed outcome).statsRefetched) := by
  refine ⟨?_, ?_, ?_⟩
  · rintro rfl
    rfl
  · cases confirmed with
    | false => simp [deleteMeal]
    | true =>
      cases outcome with
      | response status =>
        by_cases hok : response_ok status = true <;> simp [deleteMeal, hok]
      | networkError => simp [deleteMeal]
  · cases confirmed with
    | false => rfl
    | true =>
      cases outcome with
      | response status =>
        by_cases hok : response_ok status = true <;> simp [deleteMeal, hok]
      | networkError => rfl

/-- Claim C5 witness: a declined dialog does nothing; a confirmed
deletion answered 200 re-fetches the stats. -/
theorem C5_delete_refetch_gating_witness :
    deleteMeal "m1" false (.response 200) =
      { deleteRequests := [], statsRefetched := false
        mealsRefetched := false, alerted := false } ∧
    (deleteMeal "m1" true (.response 200)).statsRefetched = true :=
  ⟨(C5_delete_refetch_gating "m1" false (.response 200)).1 rfl,
   (C5_delete_refetch_gating "m1" true (.response 200)).2.1.mpr
     ⟨rfl, 200, rfl, by decide⟩⟩

/-- Claim C6 counterexample: the login handler of the earlier revisions
(script.js lines 30-52, part_000 lines 58-85) answers a 2xx login by
writing only the token; the user-preferences blob is never written, so
a submission whose response status is 200 does not put both values into
local storage as the claim requires. -/
theorem C6_counterexample :
    response_ok 200 = true ∧
    ((loginSubmit_script (.response 200)
        { token := "jwt-abc", userId := "u1", userName := "Ada"
          userEmail := "ada@example.com" }
        none { token := none, prefs := none }).1).prefs = none := ⟨rfl, rfl⟩

/-- Claim C6 as amended: in the home-script.js revision a 2xx login
response writes both the bearer token and the user-preferences blob
and any other status leaves local storage unchanged; in the earlier
script.js and part_000 revisions a 2xx response writes only the token
(preferences are untouched) and any other status leaves local storage
unchanged. -/
theorem C6_amended_login_storage (email password : String) (outcome : FetchOutcome)
    (result : LoginResult) (serverError : Option String) (now : String)
    (st : AuthStorage) :
    (∀ status : Nat, outcome = .response status → response_ok status = true →
      email ≠ "" → password ≠ "" →
      (loginSubmit_home email password outcome result serverError now st).1 =
        { token := some result.token
          prefs := some { user_id := result.userId, name := result.userName
                          email := result.userEmail, loginTime := now } }) ∧
    (∀ status : Nat, outcome = .response status → response_ok status = false →
      (loginSubmit_home email password outcome result serverError now st).1 = st) ∧
    (∀ status : Nat, outcome = .response status → response_ok status = true →
      (loginSubmit_script outcome result serverError st).1 =
        { st with token := some result.token }) ∧
    (∀ status : Nat, outcome = .response status → response_ok status = false →
      (loginSubmit_script outcome result serverError st).1 = st) := by
  refine ⟨?_, ?_, ?_, ?_⟩
  · rintro status rfl hok hn hp
    simp [loginSubmit_home, hn, hp, hok]
  · rintro status rfl hok
    by_cases hn : email = ""
    · simp [loginSubmit_home, hn]
    · by_cases hp : password = ""
      · simp [loginSubmit_home, hn, hp]
      · simp [loginSubmit_home, hn, hp, hok]
  · rintro status rfl hok
    simp [loginSubmit_script, hok]
  · rintro status rfl hok
    simp [loginSubmit_script, hok]

/-- Claim C6 amended witness: with a 200 response the home handler
stores token and preferences, and with a 500 it stores nothing. -/
theorem C6_amended_login_storage_witness :
    (loginSubmit_home "ada@example.com" "secret1" (.response 200)
        { token := "jwt-abc", userId := "u1", userName := "Ada"
          userEmail := "ada@example.com" }
        none "2025-01-01T00:00:00Z" { token := none, prefs := none }).1 =
      { token := some "jwt-abc"
        prefs := some { user_id := "u1", name := "Ada"
                        email := "ada@example.com"
                        loginTime := "2025-01-01T00:00:00Z" } } ∧
    (loginSubmit_home "ada@example.com" "secret1" (.response 500)
        { token := "jwt-abc", userId := "u1", userName := "Ada"
          userEmail := "ada@example.com" }
        none "2025-01-01T00:00:00Z" { token := none, prefs := none }).1 =
      { token := none, prefs := none } := by
  have h200 := C6_amended_login_storage "ada@example.com" "secret1" (.response 200)
    { token := "jwt-abc", userId := "u1", userName := "Ada", userEmail := "ada@example.com" }
    none "2025-01-01T00:00:00Z" { token := none, prefs := none }
  have h500 := C6_amended_login_storage "ada@example.com" "secret1" (.response 500)
    { token := "jwt-abc", userId := "u1", userName := "Ada", userEmail := "ada@example.com" }
    none "2025-01-01T00:00:00Z" { token := none, prefs := none }
  exact ⟨h200.1 200 rfl (by decide) (by decide) (by decide),
         h500.2.1 500 rfl (by decide)⟩

/-- Claim C3 counterexample: re-creating the macros chart with all-zero
macro data destroys the previously displayed instance but leaves the
handle pointing at it (the zero-total placeholder branch returns before
the handle is reassigned or nulled), so after that operation the handle
is neither null nor the currently-displayed chart. -/
theorem C3_counterexample :
    ¬ chartHandleInv (createMacrosChart 0 0 0 (createMacrosChart 1 0 0 chartInit)) := by
  have h1 : createMacrosChart 1 0 0 chartInit =
      { macrosChart := some 0, caloriesChart := none
        macrosDisplayed := some 0, caloriesDisplayed := none, nextId := 1 } := by
    norm_num [createMacrosChart, chartInit]
  rw [h1]
  norm_num [createMacrosChart, chartHandleInv]
  exact Option.some_ne_none 0

/-- Claim C3 as amended: closeAnalysisModal always re-establishes the
invariant that each chart handle is null or the currently-displayed
instance (it nulls both handles after destroying them), and the two
create operations preserve it whenever their data is non-trivial (a
nonzero macro calorie total, a non-empty daily data set); in the
trivial-data branches the old instance is destroyed but the handle is
left referring to it. -/
theorem C3_amended_handle_inv (s : ChartState) (protein carbs fat : ℚ)
    (dailyData : List (String × ℚ)) :
    chartHandleInv (closeAnalysisModal s) ∧
    (chartHandleInv s → protein * 4 + carbs * 4 + fat * 9 ≠ 0 →
      chartHandleInv (createMacrosChart protein carbs fat s)) ∧
    (chartHandleInv s → dailyData ≠ [] →
      chartHandleInv (createCaloriesChart dailyData s)) := by
  refine ⟨?_, ?_, ?_⟩
  · cases hm : s.macrosChart <;> cases hc : s.caloriesChart <;>
      simp [closeAnalysisModal, chartHandleInv, hm, hc]
  · intro hinv hne
    cases hm : s.macrosChart with
    | none =>
      simp only [createMacrosChart, chartHandleInv, hm, Option.isSome_none,
        Bool.false_eq_true, if_false, if_neg hne]
      exact ⟨Or.inr trivial, hinv.2⟩
    | some c =>
      simp only [createMacrosChart, chartHandleInv, hm, Option.isSome_some, if_true,
        if_neg hne]
      exact ⟨Or.inr trivial, hinv.2⟩
  · intro hinv hne
    cases hc : s.caloriesChart with
    | none =>
      simp only [createCaloriesChart, chartHandleInv, hc, Option.isSome_none,
        Bool.false_eq_true, if_false, if_neg hne]
      exact ⟨hinv.1, Or.inr trivial⟩
    | some c =>
      simp only [createCaloriesChart, chartHandleInv, hc, Option.isSome_some, if_true,
        if_neg hne]
      exact ⟨hinv.1, Or.inr trivial⟩

/-- Claim C3 amended witness: closing the analysis modal from the
initial state keeps the invariant, and creating a macros chart with
nonzero data from the initial state keeps it too. -/
theorem C3_amended_handle_inv_witness :
    chartHandleInv (closeAnalysisModal chartInit) ∧
    chartHandleInv (createMacrosChart 1 0 0 chartInit) := by
  refine ⟨(C3_amended_handle_inv chartInit 1 0 0 []).1, ?_⟩
  exact (C3_amended_handle_inv chartInit 1 0 0 []).2.1
    ⟨Or.inl rfl, Or.inl rfl⟩ (by norm_num)

/-- Claim C4 counterexample: a food-details result whose servings field
is present and whose serving is an empty array has no first element;
the handler throws a TypeError reading off undefined, and the preview
fields are not populated (contradicting the claim that for an array the
fields are filled from the first element). -/
theorem C4_counterexample :
    displayNutritionPreview
        { food := some { servings := some { serving := some (.many []) } } }
        { calories := "Loading...", protein := "Loading...", carbs := "Loading..."
          fat := "Loading...", visible := true } =
      .error "TypeError: cannot read properties of undefined" := rfl

/-- Claim C4 as amended: when food or food.servings is absent the
preview is returned unmodified; when servings.serving is a non-empty
array the four fields are populated from its first element, and when
it is a single serving object from that object, each with the zero
fallback for a missing (or empty) value; an empty array (or an absent
serving field) makes the handler throw before writing any field. -/
theorem C4_amended_preview_population (fd : FoodDetails) (pv : Preview) :
    (fd.food = none → displayNutritionPreview fd pv = .ok pv) ∧
    (∀ f : Food, fd.food = some f → f.servings = none →
      displayNutritionPreview fd pv = .ok pv) ∧
    (∀ (f : Food) (sv : Servings) (s : Serving) (rest : List Serving),
      fd.food = some f → f.servings = some sv →
      sv.serving = some (.many (s :: rest)) →
      displayNutritionPreview fd pv =
        .ok { calories := jsOr s.calories "0", protein := jsOr s.protein "0"
              carbs := jsOr s.carbohydrate "0", fat := jsOr s.fat "0"
              visible := true }) ∧
    (∀ (f : Food) (sv : Servings) (s : Serving),
      fd.food = some f → f.servings = some sv → sv.serving = some (.one s) →
      displayNutritionPreview fd pv =
        .ok { calories := jsOr s.calories "0", protein := jsOr s.protein "0"
              carbs := jsOr s.carbohydrate "0", fat := jsOr s.fat "0"
              visible := true }) ∧
    (∀ (f : Food) (sv : Servings),
      fd.food = some f → f.servings = some sv →
      (sv.serving = some (.many []) ∨ sv.serving = none) →
      displayNutritionPreview fd pv =
        .error "TypeError: cannot read properties of undefined") := by
  refine ⟨?_, ?_, ?_, ?_, ?_⟩
  · intro hf
    simp [displayNutritionPreview, hf]
  · intro f hf hs
    simp [displayNutritionPreview, hf, hs]
  · intro f sv s rest hf hs hent
    simp [displayNutritionPreview, hf, hs, hent]
  · intro f sv s hf hs hent
    simp [displayNutritionPreview, hf, hs, hent]
  · intro f sv hf hs hent
    rcases hent with h | h <;> simp [displayNutritionPreview, hf, hs, h]

/-- Claim C4 amended witness: an array result populates from the first
entry with the zero fallback, and an absent food leaves the preview
untouched. -/
theorem C4_amended_preview_population_witness :
    displayNutritionPreview
        { food := some { servings := some { serving := some (.many
            [{ calories := some "95", protein := some "0.5"
               carbohydrate := some "25", fat := none },
             { calories := some "190", protein := some "1"
               carbohydrate := some "50", fat := some "0.6" }]) } } }
        { calories := "Loading...", protein := "Loading...", carbs := "Loading..."
          fat := "Loading...", visible := true } =
      .ok { calories := "95", protein := "0.5", carbs := "25", fat := "0"
            visible := true } ∧
    displayNutritionPreview { food := none }
        { calories := "a", protein := "b", carbs := "c", fat := "d", visible := false } =
      .ok { calories := "a", protein := "b", carbs := "c", fat := "d", visible := false } := by
  constructor
  · have h := (C4_amended_preview_population
      { food := some { servings := some { serving := some (.many
          [{ calories := some "95", protein := some "0.5"
             carbohydrate := some "25", fat := none },
           { calories := some "190", protein := some "1"
             carbohydrate := some "50", fat := some "0.6" }]) } } }
      { calories := "Loading...", protein := "Loading...", carbs := "Loading..."
        fat := "Loading...", visible := true }).2.2.1
      { servings := some { serving := some (.many
          [{ calories := some "95", protein := some "0.5"
             carbohydrate := some "25", fat := none },
           { calories := some "190", protein := some "1"
             carbohydrate := some "50", fat := some "0.6" }]) } }
      { serving := some (.many
          [{ calories := some "95", protein := some "0.5"
             carbohydrate := some "25", fat := none },
           { calories := some "190", protein := some "1"
             carbohydrate := some "50", fat := some "0.6" }]) }
      { calories := some "95", protein := some "0.5"
        carbohydrate := some "25", fat := none }
      [{ calories := some "190", protein := some "1"
         carbohydrate := some "50", fat := some "0.6" }] rfl rfl rfl
    rw [h]
    rfl
  · exact (C4_amended_preview_population { food := none }
      { calories := "a", protein := "b", carbs := "c", fat := "d", visible := false }).1 rfl

/-- Helper for claim C9: the searches issued over a whole timeline are
the contribution of the timer pending at the start followed by the
debounced searches of the events themselves. -/
theorem runSearchEvents_issued (evs : List (Nat × String)) (s : SearchState) :
    (runSearchEvents evs s).issued =
      s.issued ++ pendingFires s.timer evs ++ debouncedSearches evs := by
  induction evs generalizing s with
  | nil =>
    cases ht : s.timer with
    | none => simp [runSearchEvents, flushTimer, pendingFires, debouncedSearches, ht]
    | some dq =>
      obtain ⟨d, q⟩ := dq
      simp [runSearchEvents, flushTimer, pendingFires, debouncedSearches, ht]
  | cons ev rest ih =>
    obtain ⟨t, raw⟩ := ev
    rw [runSearchEvents, ih]
    have hiss : (handleSearchInput raw t (fireDue t s)).issued =
        s.issued ++ pendingFires s.timer ((t, raw) :: rest) := by
      cases ht : s.timer with
      | none =>
        by_cases hl : (jsTrim raw).length < 2 <;>
          simp [handleSearchInput, fireDue, pendingFires, ht, hl]
      | some dq =>
        obtain ⟨d, q⟩ := dq
        by_cases hd : d < t <;> by_cases hl : (jsTrim raw).length < 2 <;>
          simp [handleSearchInput, fireDue, pendingFires, ht, hd, hl]
    have htim : (handleSearchInput raw t (fireDue t s)).timer =
        if (jsTrim raw).length < 2 then none else some (t + 500, jsTrim raw) := by
      by_cases hl : (jsTrim raw).length < 2 <;> simp [handleSearchInput, hl]
    rw [hiss, htim]
    by_cases hl : (jsTrim raw).length < 2
    · have h2 : ¬ 2 ≤ (jsTrim raw).length := by omega
      cases rest with
      | nil => simp [pendingFires, debouncedSearches, hl, h2, List.append_assoc]
      | cons e2 rest2 =>
        simp [pendingFires, debouncedSearches, hl, h2, List.append_assoc]
    · have h2 : 2 ≤ (jsTrim raw).length := by omega
      cases rest with
      | nil => simp [pendingFires, debouncedSearches, hl, h2, List.append_assoc]
      | cons e2 rest2 =>
        obtain ⟨t2, raw2⟩ := e2
        by_cases hlt : t + 500 < t2 <;>
          simp [pendingFires, debouncedSearches, hl, h2, hlt, List.append_assoc]

/-- Claim C9: every input event cancels the previously scheduled search
(after the handler the only pending timer is the fresh one, if any); a
trimmed query shorter than 2 characters clears the suggestion list,
issues nothing and schedules nothing; and over any timeline the
searches issued are exactly the debounced ones - each at least
2-character query whose event is followed by no further input within
500 ms (plus whatever timer was already pending when the timeline
started). -/
theorem C9_debounced_search (evs : List (Nat × String)) (s : SearchState) :
    ((runSearchEvents evs s).issued =
      s.issued ++ pendingFires s.timer evs ++ debouncedSearches evs) ∧
    (∀ (raw : String) (now : Nat) (st : SearchState),
      (handleSearchInput raw now st).timer = none ∨
      (handleSearchInput raw now st).timer = some (now + 500, jsTrim raw)) ∧
    (∀ (raw : String) (now : Nat) (st : SearchState),
      (jsTrim raw).length < 2 →
      (handleSearchInput raw now st).suggestionsHtml = "" ∧
      (handleSearchInput raw now st).timer = none ∧
      (handleSearchInput raw now st).issued = st.issued) := by
  refine ⟨runSearchEvents_issued evs s, ?_, ?_⟩
  · intro raw now st
    by_cases hl : (jsTrim raw).length < 2
    · exact Or.inl (by simp [handleSearchInput, hl])
    · exact Or.inr (by simp [handleSearchInput, hl])
  · intro raw now st hl
    simp [handleSearchInput, hl]

/-- Claim C9 witness: on a concrete timeline the first query (followed
100 ms later by more input) is never searched, while the two queries
left alone for 500 ms are; a 1-character input clears the suggestions. -/
theorem C9_debounced_search_witness :
    (runSearchEvents [(0, "ap"), (100, "app"), (700, "appl")]
        { timer := none, suggestionsHtml := "", issued := [] }).issued =
      ["app", "appl"] ∧
    (handleSearchInput "a" 0
        { timer := some (500, "zz"), suggestionsHtml := "old", issued := [] }).suggestionsHtml = "" := by
  constructor
  · have h := (C9_debounced_search [(0, "ap"), (100, "app"), (700, "appl")]
      { timer := none, suggestionsHtml := "", issued := [] }).1
    rw [h]
    rfl
  · exact ((C9_debounced_search [] { timer := none, suggestionsHtml := "", issued := [] }).2.2
      "a" 0 { timer := some (500, "zz"), suggestionsHtml := "old", issued := [] }
      (by decide)).1

/-- Claim C8: for a form with truthy numeric age, weight and height, a
gender and an activity level, calculateGoals computes exactly the
BMR / TDEE / daily-calorie / macro-split formulas the specification
states (specGoals is that formula set transcribed from the claim), and
a missing (falsy) required field aborts with the inline error message
and no goals. -/
theorem C8_goal_formulas (f : ProfileFormInput) (a h : Int) (w : ℚ)
    (ha : f.age = some a) (ha0 : a ≠ 0)
    (hw : f.weight = some w) (hw0 : w ≠ 0)
    (hh : f.height = some h) (hh0 : h ≠ 0)
    (hg : f.gender ≠ "") (hal : f.activityLevel ≠ "") :
    calculateGoals f = .ok (specGoals a h w f.weeklyGoal f.gender f.activityLevel) ∧
    (∀ g : ProfileFormInput,
      (numFalsyInt g.age || numFalsyRat g.weight || numFalsyInt g.height ||
        g.gender = "" || g.activityLevel = "") = true →
      calculateGoals g = .error "Please fill in all personal information fields first.") := by
  constructor
  · simp only [calculateGoals, specGoals, activityMultiplier, ha, hw, hh,
      Option.getD_some, numFalsyInt, numFalsyRat, Bool.or_eq_true, decide_eq_true_eq,
      ha0, hw0, hh0, hg, hal, or_self, or_false, false_or, ite_false, reduceIte]
    congr 1
    simp only [Goals.mk.injEq]
    refine ⟨trivial, ?_, ?_, ?_⟩ <;> (congr 1; ring)
  · intro g hfalsy
    simp [calculateGoals, hfalsy]

/-- Claim C8 witness: a concrete male, moderately active profile of age
30, weight 70, height 175 and no weekly goal gets 2556 daily calories
and a 160 g / 288 g / 85 g macro split. -/
theorem C8_goal_formulas_witness :
    calculateGoals { age := some 30, weight := some 70, height := some 175
                     gender := "male", activityLevel := "moderate", weeklyGoal := 0 } =
      .ok (specGoals 30 175 70 0 "male" "moderate") ∧
    specGoals 30 175 70 0 "male" "moderate" =
      { dailyCalories := 2556, dailyProtein := 160, dailyCarbs := 288, dailyFat := 85 } := by
  constructor
  · exact (C8_goal_formulas
      { age := some 30, weight := some 70, height := some 175
        gender := "male", activityLevel := "moderate", weeklyGoal := 0 }
      30 175 70 rfl (by decide) rfl (by norm_num) rfl (by decide)
      (by decide) (by decide)).1
  · norm_num [specGoals, round_eq,
      show ("moderate" : String) ≠ "sedentary" from by decide,
      show ("moderate" : String) ≠ "light" from by decide]

/-- Claim C10: when the stats call succeeds and the profile call yields
a nonzero dailyCalories, the displayed goal progress is
min(round(100 * total_calories / dailyCalories), 100), hence never
above 100; when the profile call fails or dailyCalories is absent the
server-supplied goal_progress is displayed unchanged. -/
theorem C10_goal_progress_cap (stats : MealStats) (d : ℚ) (dc : Option ℚ)
    (hd : d ≠ 0) :
    (loadMealStatsWithGoals true stats true (some d) =
      some { caloriesCount := stats.total_calories, mealsCount := stats.meals_count
             goalProgressPct :=
               ((min (round (100 * stats.total_calories / d)) 100 : Int) : ℚ)
             streakCount := stats.streak }) ∧
    ((min (round (100 * stats.total_calories / d)) 100 : Int) : ℚ) ≤ 100 ∧
    (loadMealStatsWithGoals true stats false dc =
      some { caloriesCount := stats.total_calories, mealsCount := stats.meals_count
             goalProgressPct := stats.goal_progress, streakCount := stats.streak }) ∧
    (loadMealStatsWithGoals true stats true none =
      some { caloriesCount := stats.total_calories, mealsCount := stats.meals_count
             goalProgressPct := stats.goal_progress, streakCount := stats.streak }) := by
  refine ⟨?_, ?_, ?_, ?_⟩
  · have hcomm : stats.total_calories / d * 100 = 100 * stats.total_calories / d := by
      ring
    simp [loadMealStatsWithGoals, hd, hcomm]
  · have h1 : min (round (100 * stats.total_calories / d)) 100 ≤ (100 : Int) :=
      min_le_right _ _
    exact_mod_cast h1
  · simp [loadMealStatsWithGoals]
  · simp [loadMealStatsWithGoals]

/-- Claim C10 witness: an intake of 2500 against a 2000-calorie goal
displays 100 percent, not 125. -/
theorem C10_goal_progress_cap_witness :
    loadMealStatsWithGoals true
        { total_calories := 2500, meals_count := 3, goal_progress := 42, streak := 2 }
        true (some 2000) =
      some { caloriesCount := 2500, mealsCount := 3
             goalProgressPct := 100, streakCount := 2 } := by
  have h := (C10_goal_progress_cap
    { total_calories := 2500, meals_count := 3, goal_progress := 42, streak := 2 }
    2000 none (by norm_num)).1
  rw [h]
  norm_num

end NutritionAdvisor
